import Mathlib

/-!
Shallow embedding of `benchmark/benchmark.py` from nathanchance/tc-build.

The script assembles command lines (Python lists whose elements are `str`,
`pathlib.Path` or `int` values) and runs them through the external timing
tool `hyperfine`.  We model a command-line element as the sum of those three
Python value kinds: Python's `in` operator on a list compares with `==`, and
a `str` never compares equal to a `Path` even when their texts coincide, so
keeping the kinds apart is required for faithfulness of the membership tests
the script performs (`'--pgo' in cmd`, `'full' in cmd`, `'thin' in cmd`).
-/

namespace TcBuildBench

/-- One element of an assembled command list: a Python `str`, a
`pathlib.Path`, or an `int` (only the `--jobs` count is an `int`). -/
inductive Elem where
  | str : String → Elem
  | path : String → Elem
  | num : Nat → Elem
deriving DecidableEq

/-- `str(elem)`, as used by `' '.join(str(elem) for elem in cmd)`. -/
def Elem.render : Elem → String
  | .str s => s
  | .path p => p
  | .num n => toString n

/-- Helper for `pyIn`: is the first character list a contiguous block of
the second? -/
def charsInfix : List Char → List Char → Bool
  | n, [] => n.isEmpty
  | n, b :: t => n.isPrefixOf (b :: t) || charsInfix n t

/-- Python substring test `needle in hay` on strings. -/
def pyIn (needle hay : String) : Bool :=
  charsInfix needle.data hay.data

/-- The run-time configuration of one invocation of the script: resolved
CLI paths (`args.build_folder.resolve()` etc.), the resolved locations of
the interpreter and of `make` (`shutil.which`), the host machine string
(`platform.machine()`), the physical memory in GiB (`MEM`), and the CPU
affinity count used for `--jobs`. -/
structure Config where
  python3 : String
  buildLlvmPy : String
  buildFolder : String
  installFolder : String
  linuxFolder : String
  llvmFolder : String
  resultsFolder : String
  machine : String
  mem : Nat
  jobs : Nat
  makePath : String
deriving DecidableEq

/-- `llvm_build_folder = Path(build_folder, 'llvm')`. -/
def llvmBuildFolder (cfg : Config) : String := cfg.buildFolder ++ "/llvm"

/-- `linux_build_folder = Path(build_folder, 'linux')`. -/
def linuxBuildFolder (cfg : Config) : String := cfg.buildFolder ++ "/linux"

/-- `GCC_VERSION = '13.2.0'`. -/
def GCC_VERSION : String := "13.2.0"

/-- `GCC_INSTALL = Path(install_folder, 'gcc', GCC_VERSION)`. -/
def GCC_INSTALL (cfg : Config) : String := cfg.installFolder ++ "/gcc/" ++ GCC_VERSION

/-- `LLVM_INSTALL = Path(install_folder, 'llvm')`. -/
def LLVM_INSTALL (cfg : Config) : String := cfg.installFolder ++ "/llvm"

/-- `GCC_TUPLES`, the cross-compiler target triples fetched from kernel.org. -/
def GCC_TUPLES : List String :=
  ["aarch64-linux", "arm-linux-gnueabi", "x86_64-linux"]

/-- The download-and-extract loop over `GCC_TUPLES` (lines 130-151).  The
first argument is the set of triples whose marker binary
`GCC_INSTALL/bin/{tuple}-gcc` already exists; the loop skips those
(`continue`) and otherwise downloads and extracts the archive.
Modelled from the spec: a successful extraction installs the marker gcc
binary for that triple (the archive contents are external to the script),
so extraction adds the triple to the set of present markers.  The result is
the final set of present markers together with the list of triples that
were downloaded and extracted, in loop order. -/
def fetchGcc : List String → List String → List String × List String
  | present, [] => (present, [])
  | present, t :: ts =>
    if t ∈ present then
      fetchGcc present ts
    else
      let rest := fetchGcc (t :: present) ts
      (rest.1, t :: rest.2)

/-- `CHECK_TARGETS`. -/
def CHECK_TARGETS : List String := ["clang", "lld", "llvm", "llvm-unit"]

/-- `TARGETS`. -/
def TARGETS : List String := ["ARM", "AArch64", "X86"]

/-- `BASE_BUILD_LLVM_PY_CMD` (lines 164-173).  `shutil.which('python3')`
is a `str`; `BUILD_LLVM_PY`, `llvm_build_folder` and `llvm_folder` are
`Path` values. -/
def BASE_BUILD_LLVM_PY_CMD (cfg : Config) : List Elem :=
  [.str cfg.python3,
   .path cfg.buildLlvmPy,
   .str "--build-folder", .path (llvmBuildFolder cfg),
   .str "--check-targets"] ++ CHECK_TARGETS.map .str ++
  [.str "--llvm-folder", .path cfg.llvmFolder,
   .str "--no-ccache",
   .str "--quiet-cmake",
   .str "--targets"] ++ TARGETS.map .str

/-- `MEM = int(os.sysconf('SC_PAGE_SIZE') * os.sysconf('SC_PHYS_PAGES') / 1024**3)`
(line 205).  Python divides as floats and truncates with `int()`; on values
where the product is exactly representable this agrees with natural-number
division, which is what we use. -/
def memGiB (pageSize physPages : Nat) : Nat :=
  pageSize * physPages / 1024 ^ 3

/-- `FULL_LTO_JL = MEM // 30` (line 206). -/
def FULL_LTO_JL (mem : Nat) : Nat := mem / 30

/-- `THIN_LTO_JL = MEM // 15` (line 206). -/
def THIN_LTO_JL (mem : Nat) : Nat := mem / 15

/-- The `description` dictionary of an `LLVM_MATRIX` entry. -/
structure Description where
  full : String
  short : String
deriving DecidableEq

/-- One `LLVM_MATRIX` entry: a list of extra `build-llvm.py` arguments plus
a description. -/
structure LLVMMatrixItem where
  args : List String
  description : Description
deriving DecidableEq

/-- The eight unconditional `LLVM_MATRIX` entries (lines 209-266). -/
def LLVM_MATRIX_BASE : List LLVMMatrixItem :=
  [{ args := ["--build-stage1-only"],
     description := { full := "Stage one only", short := "stage-one" } },
   { args := [],
     description := { full := "Default two stage build", short := "normal" } },
   { args := ["--lto", "thin"],
     description := { full := "Two stage build with ThinLTO", short := "thinlto" } },
   { args := ["--lto", "full"],
     description := { full := "Two stage build with LTO", short := "lto" } },
   { args := ["--pgo", "kernel-defconfig"],
     description := { full := "Three stage build with PGO against defconfig",
                      short := "pgo-defconfig" } },
   { args := ["--pgo", "kernel-defconfig", "kernel-allmodconfig"],
     description := { full := "Three stage build with PGO against defconfig and allmodconfig",
                      short := "pgo-defconfig-allmodconfig" } },
   { args := ["--lto", "thin", "--pgo", "kernel-defconfig"],
     description := { full := "Three stage build with ThinLTO and PGO against defconfig",
                      short := "pgo-defconfig-thinlto" } },
   { args := ["--lto", "full", "--pgo", "kernel-defconfig"],
     description := { full := "Three stage build with LTO and PGO against defconfig",
                      short := "pgo-defconfig-lto" } }]

/-- The three BOLT entries appended when `MACHINE == 'x86_64'`
(lines 267-290). -/
def LLVM_MATRIX_BOLT : List LLVMMatrixItem :=
  [{ args := ["--bolt", "--pgo", "kernel-defconfig"],
     description := { full := "Three stage build with BOLT and PGO against defconfig",
                      short := "pgo-defconfig-bolt" } },
   { args := ["--bolt", "--lto", "thin", "--pgo", "kernel-defconfig"],
     description := { full := "Three stage build with BOLT, ThinLTO, and PGO against defconfig",
                      short := "pgo-defconfig-bolt-thinlto" } },
   { args := ["--bolt", "--lto", "full", "--pgo", "kernel-defconfig"],
     description := { full := "Three stage build with BOLT, LTO, and PGO against defconfig",
                      short := "pgo-defconfig-bolt-lto" } }]

/-- `LLVM_MATRIX`, as a function of `MACHINE`. -/
def LLVM_MATRIX (machine : String) : List LLVMMatrixItem :=
  LLVM_MATRIX_BASE ++ (if machine = "x86_64" then LLVM_MATRIX_BOLT else [])

/-- `matrix_install_folder = Path(LLVM_INSTALL, matrix_item['description']['short'])`. -/
def matrixInstallFolder (cfg : Config) (item : LLVMMatrixItem) : String :=
  LLVM_INSTALL cfg ++ "/" ++ item.description.short

/-- The full-LTO link-jobs define string `LLVM_PARALLEL_LINK_JOBS=n` with
the full-LTO job count (line 313). -/
def fullDefineStr (cfg : Config) : String :=
  "LLVM_PARALLEL_LINK_JOBS=" ++ toString (FULL_LTO_JL cfg.mem)

/-- The thin-LTO link-jobs define string. -/
def thinDefineStr (cfg : Config) : String :=
  "LLVM_PARALLEL_LINK_JOBS=" ++ toString (THIN_LTO_JL cfg.mem)

/-- `build_llvm_py_cmd` right after its initial assignment (lines 303-308):
the base command, `--install-folder` with the per-entry install path, and
the entry's extra arguments. -/
def buildLlvmPyCmd0 (cfg : Config) (item : LLVMMatrixItem) : List Elem :=
  BASE_BUILD_LLVM_PY_CMD cfg ++
  [.str "--install-folder", .path (matrixInstallFolder cfg item)] ++
  item.args.map .str

/-- The command after lines 309-310: `if '--pgo' in build_llvm_py_cmd:`
append `--linux-folder linux_folder`. -/
def buildLlvmPyCmd1 (cfg : Config) (item : LLVMMatrixItem) : List Elem :=
  let c := buildLlvmPyCmd0 cfg item
  if Elem.str "--pgo" ∈ c then c ++ [.str "--linux-folder", .path cfg.linuxFolder] else c

/-- The command after lines 312-313: `if 'full' in build_llvm_py_cmd:`
append the full-LTO link-jobs define. -/
def buildLlvmPyCmd2 (cfg : Config) (item : LLVMMatrixItem) : List Elem :=
  let c := buildLlvmPyCmd1 cfg item
  if Elem.str "full" ∈ c then c ++ [.str "--defines", .str (fullDefineStr cfg)] else c

/-- The finished `build_llvm_py_cmd` after lines 314-315:
`if 'thin' in build_llvm_py_cmd:` append the thin-LTO link-jobs define. -/
def buildLlvmPyCmd (cfg : Config) (item : LLVMMatrixItem) : List Elem :=
  let c := buildLlvmPyCmd2 cfg item
  if Elem.str "thin" ∈ c then c ++ [.str "--defines", .str (thinDefineStr cfg)] else c

/-- `hyperfine_descriptions` after the loop over `LLVM_MATRIX`
(lines 294-300). -/
def hyperfineDescriptions (machine : String) : List String :=
  (LLVM_MATRIX machine).map (fun i => i.description.full)

/-- `llvm_toolchains` after the loop (line 301):
`Path(matrix_install_folder, 'bin')` per entry. -/
def llvmToolchains (cfg : Config) : List String :=
  (LLVM_MATRIX cfg.machine).map (fun i => matrixInstallFolder cfg i ++ "/bin")

/-- `' '.join(str(elem) for elem in cmd)` (lines 317 and 422). -/
def renderCmd (c : List Elem) : String :=
  String.intercalate " " (c.map Elem.render)

/-- `hyperfine_cmds` after the loop (line 317): the rendered
`build_llvm_py_cmd` strings, in matrix order. -/
def llvmHyperfineBuildCmds (cfg : Config) : List String :=
  (LLVM_MATRIX cfg.machine).map (fun i => renderCmd (buildLlvmPyCmd cfg i))

/-- The `hyperfine` invocation for the LLVM build benchmark
(lines 319-328). -/
def llvmHyperfineCmd (cfg : Config) : List Elem :=
  [.str "hyperfine"] ++
  (hyperfineDescriptions cfg.machine).flatMap
    (fun d => [.str "--command-name", .str d]) ++
  [.str "--export-markdown", .path (cfg.resultsFolder ++ "/llvm.md"),
   .str "--prepare", .str ("rm -fr " ++ llvmBuildFolder cfg),
   .str "--runs", .str "5",
   .str "--shell", .str "none",
   .str "--warmup", .str "1"] ++
  (llvmHyperfineBuildCmds cfg).map .str

/-- One `KERNEL_MATRIX` entry (lines 339-370). -/
structure KernelMatrixItem where
  arch : String
  config : String
  cross_compile : String
deriving DecidableEq

/-- `KERNEL_MATRIX`. -/
def KERNEL_MATRIX : List KernelMatrixItem :=
  [{ arch := "arm", config := "multi_v7_defconfig", cross_compile := "arm-linux-gnueabi-" },
   { arch := "arm64", config := "defconfig", cross_compile := "aarch64-linux-" },
   { arch := "x86_64", config := "defconfig", cross_compile := "x86_64-linux-" },
   { arch := "arm", config := "allmodconfig", cross_compile := "arm-linux-gnueabi-" },
   { arch := "arm64", config := "allmodconfig", cross_compile := "aarch64-linux-" },
   { arch := "x86_64", config := "allmodconfig", cross_compile := "x86_64-linux-" }]

/-- `BASE_MAKE_CMD` (lines 371-379): `shutil.which('make')` is a `str`,
`linux_folder` a `Path`, the `--jobs` count an `int`. -/
def BASE_MAKE_CMD (cfg : Config) : List Elem :=
  [.str cfg.makePath,
   .str "--directory", .path cfg.linuxFolder,
   .str "--keep-going",
   .str "--jobs", .num cfg.jobs,
   .str "--silent"]

/-- `allmod_config = Path(build_folder, '.allmod.config')` (line 387). -/
def allmodConfigPath (cfg : Config) : String :=
  cfg.buildFolder ++ "/.allmod.config"

/-- The content written to the config override file (line 389). -/
def ALLMOD_CONFIG_CONTENT : String := "CONFIG_GCC_PLUGINS=n\n"

/-- Lines 387-389: if the override file does not exist, write
`CONFIG_GCC_PLUGINS=n` to it; otherwise leave it alone.  The argument is
the file's prior content (`none` when absent); the result is the content
after the run together with whether a write happened. -/
def ensureAllmodConfig : Option String → String × Bool
  | some content => (content, false)
  | none => (ALLMOD_CONFIG_CONTENT, true)

/-- Does a config fragment force the plugin-disabling option? -/
def forcesGccPluginsOff (content : String) : Bool :=
  pyIn "CONFIG_GCC_PLUGINS=n" content

/-- `matrix_make_vars` (lines 391-394): `ARCH` plus `BASE_MAKE_VARS`
(`KCFLAGS`, `O`), in insertion order. -/
def matrixMakeVars (cfg : Config) (item : KernelMatrixItem) : List (String × Elem) :=
  [("ARCH", .str item.arch),
   ("KCFLAGS", .str "-Wno-error"),
   ("O", .path (linuxBuildFolder cfg))]

/-- `toolchain_make_vars` (lines 395-401): the GCC baseline variable set
followed by one `LLVM` variable set per toolchain variant. -/
def toolchainMakeVars (cfg : Config) (item : KernelMatrixItem) : List (List (String × Elem)) :=
  [("CROSS_COMPILE", Elem.path (GCC_INSTALL cfg ++ "/bin/" ++ item.cross_compile)),
   ("KCONFIG_ALLCONFIG", Elem.path (allmodConfigPath cfg))] ::
  (llvmToolchains cfg).map (fun tc => [("LLVM", Elem.str (tc ++ "/"))])

/-- `make_variables = {**matrix_make_vars, **tc_make_vars}` (line 415) for
each toolchain variant; the key sets are disjoint, so dictionary merge is
concatenation. -/
def kernelVariantVars (cfg : Config) (item : KernelMatrixItem) : List (List (String × Elem)) :=
  (toolchainMakeVars cfg item).map (fun tv => matrixMakeVars cfg item ++ tv)

/-- The keys of a variable set. -/
def varKeys (v : List (String × Elem)) : List String := v.map Prod.fst

/-- Insertion into a key-sorted association list. -/
def insertPair (p : String × Elem) : List (String × Elem) → List (String × Elem)
  | [] => [p]
  | q :: qs => if p.1 < q.1 then p :: q :: qs else q :: insertPair p qs

/-- `sorted(make_variables)` (line 418): iterate the variables in
lexicographically sorted key order (the keys are pairwise distinct). -/
def sortPairs : List (String × Elem) → List (String × Elem)
  | [] => []
  | p :: ps => insertPair p (sortPairs ps)

/-- `make_command` (lines 416-421) for one variable set. -/
def makeCommand (cfg : Config) (item : KernelMatrixItem) (vars : List (String × Elem)) :
    List Elem :=
  BASE_MAKE_CMD cfg ++
  (sortPairs vars).map (fun kv => Elem.str (kv.1 ++ "=" ++ kv.2.render)) ++
  [.str item.config, .str "all"]

/-- `kernelRuns` is the `--runs` value of line 409:
`'10' if 'defconfig' in matrix_item['config'] else '5'`. -/
def kernelRuns (cfgName : String) : String :=
  if pyIn "defconfig" cfgName then "10" else "5"

/-- The `hyperfine` invocation for one `KERNEL_MATRIX` entry
(lines 403-422). -/
def kernelHyperfineCmd (cfg : Config) (item : KernelMatrixItem) : List Elem :=
  [.str "hyperfine",
   .str "--command-name", .str ("GCC " ++ GCC_VERSION)] ++
  (hyperfineDescriptions cfg.machine).flatMap
    (fun d => [.str "--command-name", .str ("LLVM (" ++ d ++ ")")]) ++
  [.str "--export-markdown",
   .path (cfg.resultsFolder ++ "/" ++ item.arch ++ "-" ++ item.config ++ ".md"),
   .str "--prepare", .str ("rm -fr " ++ linuxBuildFolder cfg),
   .str "--runs", .str (kernelRuns item.config),
   .str "--shell", .str "none",
   .str "--warmup", .str "1"] ++
  (kernelVariantVars cfg item).map (fun v => .str (renderCmd (makeCommand cfg item v)))

/-- All `hyperfine` invocations assembled by the script, in program order:
the LLVM build benchmark (line 319) followed by one kernel build benchmark
per `KERNEL_MATRIX` entry (line 403). -/
def allHyperfineCmds (cfg : Config) : List (List Elem) :=
  llvmHyperfineCmd cfg :: KERNEL_MATRIX.map (kernelHyperfineCmd cfg)

/-- One execution site (lines 332-335 and 427-430): when `args.dry_run` is
set, emit a warning and run nothing; otherwise run the assembled command.
The result is the list of executed commands (empty or a singleton) and the
number of warnings emitted. -/
def runSite (dryRun : Bool) (cmd : List Elem) : List (List Elem) × Nat :=
  if dryRun then ([], 1) else ([cmd], 0)

/-- Drive every assembled invocation through its execution site. -/
def driveAll (dryRun : Bool) : List (List Elem) → List (List Elem) × Nat
  | [] => ([], 0)
  | c :: cs =>
    let r := runSite dryRun c
    let rest := driveAll dryRun cs
    (r.1 ++ rest.1, r.2 + rest.2)

/-- The observable behaviour of one benchmarking pass: the commands that
were assembled, the commands actually handed to `subprocess.run`, and the
number of dry-run warnings printed. -/
structure Trace where
  assembled : List (List Elem)
  executed : List (List Elem)
  warnings : Nat
deriving DecidableEq

/-- Assemble every timing-tool invocation and drive it through the
execution sites under the given `args.dry_run` value. -/
def benchmarkTrace (cfg : Config) (dryRun : Bool) : Trace :=
  let cmds := allHyperfineCmds cfg
  let r := driveAll dryRun cmds
  { assembled := cmds, executed := r.1, warnings := r.2 }

/-- The facts about the host and the supplied source trees that the
precondition checks of lines 69-115 probe.  `versionCheck` stands for the
kernel version comparison of lines 82-89, whose implementation
(`tc_build.kernel.LinuxSourceManager.get_version`) lives outside this
repository slice; an `error` value covers both an exception from reading
the kernel Makefile and a too-old version. -/
structure HostEnv where
  machine : String
  versionCheck : Except String Unit
  hyperfineFound : Bool
  linuxFolderExists : Bool
  llvmFolderExists : Bool
  linuxMakefileExists : Bool
  llvmCMakeListsExists : Bool
  linuxConfigExists : Bool

/-- The distinct fatal outcomes of the precondition checks, each carrying
the descriptive message (or exit) the script produces. -/
inductive PreErr where
  /-- line 69: unsupported `platform.machine()`, printed message + `sys.exit(1)`. -/
  | unsupportedMachine
  /-- lines 82-89: kernel version probe failed or version too old. -/
  | versionError (msg : String)
  /-- line 93: `hyperfine` not found in `PATH` (`FileNotFoundError`). -/
  | hyperfineMissing
  /-- line 100: kernel source folder does not exist. -/
  | linuxFolderMissing
  /-- line 103: LLVM source folder does not exist. -/
  | llvmFolderMissing
  /-- line 105: no `Makefile`, not a kernel source tree (`RuntimeError`). -/
  | noMakefile
  /-- line 109: no `llvm/CMakeLists.txt`, not an LLVM source tree. -/
  | noCMakeLists
  /-- line 112: leftover `.config`, tree not clean (`RuntimeError`). -/
  | notClean
deriving DecidableEq

/-- The precondition checks of lines 69-115, in source order; the first
failing check stops the script. -/
def validatePreconditions (e : HostEnv) : Except PreErr Unit :=
  if ¬(e.machine = "aarch64" ∨ e.machine = "x86_64") then .error .unsupportedMachine
  else match e.versionCheck with
  | .error msg => .error (.versionError msg)
  | .ok () =>
    if ¬e.hyperfineFound then .error .hyperfineMissing
    else if ¬e.linuxFolderExists then .error .linuxFolderMissing
    else if ¬e.llvmFolderExists then .error .llvmFolderMissing
    else if ¬e.linuxMakefileExists then .error .noMakefile
    else if ¬e.llvmCMakeListsExists then .error .noCMakeLists
    else if e.linuxConfigExists then .error .notClean
    else .ok ()

/-- The script end to end, at the level the claims talk about: run the
precondition checks; only when they pass, assemble and drive the
benchmark commands. -/
def benchmarkMain (e : HostEnv) (cfg : Config) (dryRun : Bool) : Except PreErr Trace := do
  validatePreconditions e
  pure (benchmarkTrace cfg dryRun)

/-- A concrete configuration used by the witness theorems: realistic
resolved paths, an x86_64 host with 64 GiB of memory and 16 CPUs. -/
def sampleConfig : Config :=
  { python3 := "/usr/bin/python3",
    buildLlvmPy := "/home/user/tc-build/build-llvm.py",
    buildFolder := "/home/user/tc-build/benchmark/build",
    installFolder := "/home/user/tc-build/benchmark/toolchains",
    linuxFolder := "/home/user/src/linux",
    llvmFolder := "/home/user/src/llvm-project",
    resultsFolder := "/home/user/tc-build/benchmark/results",
    machine := "x86_64",
    mem := 64,
    jobs := 16,
    makePath := "/usr/bin/make" }

/-!  Helper lemmas. -/

/-- The `str` elements of a command list, in order: the values Python's
`in` operator compares a `str` needle against (a `str` never equals a
`Path` or an `int`). -/
def strElems (l : List Elem) : List String :=
  l.filterMap (fun e => match e with | .str s => some s | _ => none)

@[simp] lemma strElems_nil : strElems [] = [] := rfl

@[simp] lemma strElems_cons_str (s : String) (t : List Elem) :
    strElems (.str s :: t) = s :: strElems t := rfl

@[simp] lemma strElems_cons_path (p : String) (t : List Elem) :
    strElems (.path p :: t) = strElems t := rfl

@[simp] lemma strElems_cons_num (n : Nat) (t : List Elem) :
    strElems (.num n :: t) = strElems t := rfl

@[simp] lemma strElems_append (a b : List Elem) :
    strElems (a ++ b) = strElems a ++ strElems b := by
  simp [strElems, List.filterMap_append]

@[simp] lemma strElems_map_str (l : List String) :
    strElems (l.map Elem.str) = l := by
  induction l with
  | nil => rfl
  | cons a t ih => simp [ih]

lemma mem_str_iff (s : String) (l : List Elem) :
    Elem.str s ∈ l ↔ s ∈ strElems l := by
  induction l with
  | nil => simp
  | cons e t ih => cases e <;> simp [ih]

lemma define_length (x : String) :
    ("LLVM_PARALLEL_LINK_JOBS=" ++ x).length = 24 + x.length := by
  rw [String.length_append]
  norm_num [show ("LLVM_PARALLEL_LINK_JOBS=" : String).length = 24 from rfl]

lemma define_ne_short {s : String} (x : String) (h : s.length < 24) :
    "LLVM_PARALLEL_LINK_JOBS=" ++ x ≠ s := by
  intro he
  have hl := congrArg String.length he
  rw [define_length] at hl
  omega

lemma fullDefineStr_ne_short (cfg : Config) {s : String} (h : s.length < 24) :
    fullDefineStr cfg ≠ s :=
  define_ne_short _ h

lemma thinDefineStr_ne_short (cfg : Config) {s : String} (h : s.length < 24) :
    thinDefineStr cfg ≠ s :=
  define_ne_short _ h

/-- The fixed strings of `buildLlvmPyCmd0` other than the interpreter
path, in order. -/
def FIXED0_STRS : List String :=
  ["--build-folder", "--check-targets", "clang", "lld", "llvm", "llvm-unit",
   "--llvm-folder", "--no-ccache", "--quiet-cmake", "--targets",
   "ARM", "AArch64", "X86", "--install-folder"]

lemma strElems_cmd0 (cfg : Config) (item : LLVMMatrixItem) :
    strElems (buildLlvmPyCmd0 cfg item) = cfg.python3 :: (FIXED0_STRS ++ item.args) := by
  simp [buildLlvmPyCmd0, BASE_BUILD_LLVM_PY_CMD, CHECK_TARGETS, TARGETS, FIXED0_STRS]

lemma mem_str_cmd0 (cfg : Config) (item : LLVMMatrixItem) {s : String}
    (hs : cfg.python3 ≠ s) (hfix : s ∉ FIXED0_STRS) :
    Elem.str s ∈ buildLlvmPyCmd0 cfg item ↔ s ∈ item.args := by
  rw [mem_str_iff, strElems_cmd0]
  simp [List.mem_cons, List.mem_append, Ne.symm hs, hfix]

lemma buildLlvmPyCmd1_eq (cfg : Config) (item : LLVMMatrixItem)
    (hp : cfg.python3 ≠ "--pgo") :
    buildLlvmPyCmd1 cfg item = buildLlvmPyCmd0 cfg item ++
      (if "--pgo" ∈ item.args then [Elem.str "--linux-folder", Elem.path cfg.linuxFolder]
       else []) := by
  unfold buildLlvmPyCmd1
  simp only [mem_str_cmd0 cfg item hp (by decide)]
  by_cases h : "--pgo" ∈ item.args <;> simp [h]

lemma mem_full_cmd1 (cfg : Config) (item : LLVMMatrixItem)
    (hp : cfg.python3 ≠ "--pgo") (hf : cfg.python3 ≠ "full") :
    Elem.str "full" ∈ buildLlvmPyCmd1 cfg item ↔ "full" ∈ item.args := by
  rw [buildLlvmPyCmd1_eq cfg item hp]
  by_cases h : "--pgo" ∈ item.args <;>
    simp [h, mem_str_cmd0 cfg item hf (by decide)]

lemma buildLlvmPyCmd2_eq (cfg : Config) (item : LLVMMatrixItem)
    (hp : cfg.python3 ≠ "--pgo") (hf : cfg.python3 ≠ "full") :
    buildLlvmPyCmd2 cfg item = buildLlvmPyCmd1 cfg item ++
      (if "full" ∈ item.args then [Elem.str "--defines", Elem.str (fullDefineStr cfg)]
       else []) := by
  unfold buildLlvmPyCmd2
  simp only [mem_full_cmd1 cfg item hp hf]
  by_cases h : "full" ∈ item.args <;> simp [h]

lemma mem_thin_cmd2 (cfg : Config) (item : LLVMMatrixItem)
    (hp : cfg.python3 ≠ "--pgo") (hf : cfg.python3 ≠ "full")
    (ht : cfg.python3 ≠ "thin") :
    Elem.str "thin" ∈ buildLlvmPyCmd2 cfg item ↔ "thin" ∈ item.args := by
  rw [buildLlvmPyCmd2_eq cfg item hp hf, buildLlvmPyCmd1_eq cfg item hp]
  have hfd : fullDefineStr cfg ≠ "thin" := fullDefineStr_ne_short cfg (by decide)
  by_cases h1 : "--pgo" ∈ item.args <;> by_cases h2 : "full" ∈ item.args <;>
    simp [h1, h2, mem_str_cmd0 cfg item ht (by decide), hfd, Ne.symm hfd]

/-- Characterization of the finished `build_llvm_py_cmd`: under the
(realistic) assumption that the resolved interpreter path is not one of
the literal tokens the script's membership tests look for, the command is
the initial command followed by the `--linux-folder` pair exactly when the
entry requests PGO and by a link-jobs define exactly when it requests the
corresponding LTO mode. -/
lemma buildLlvmPyCmd_eq (cfg : Config) (item : LLVMMatrixItem)
    (hp : cfg.python3 ≠ "--pgo") (hf : cfg.python3 ≠ "full")
    (ht : cfg.python3 ≠ "thin") :
    buildLlvmPyCmd cfg item =
      buildLlvmPyCmd0 cfg item ++
      (if "--pgo" ∈ item.args then [Elem.str "--linux-folder", Elem.path cfg.linuxFolder]
       else []) ++
      (if "full" ∈ item.args then [Elem.str "--defines", Elem.str (fullDefineStr cfg)]
       else []) ++
      (if "thin" ∈ item.args then [Elem.str "--defines", Elem.str (thinDefineStr cfg)]
       else []) := by
  unfold buildLlvmPyCmd
  simp only [mem_thin_cmd2 cfg item hp hf ht]
  rw [buildLlvmPyCmd2_eq cfg item hp hf, buildLlvmPyCmd1_eq cfg item hp]
  by_cases h3 : "thin" ∈ item.args <;> simp [h3, List.append_assoc]

lemma matrix_args_short {machine : String} {item : LLVMMatrixItem}
    (h : item ∈ LLVM_MATRIX machine) : ∀ a ∈ item.args, a.length < 24 := by
  rw [LLVM_MATRIX, List.mem_append] at h
  rcases h with h | h
  · exact (by decide : ∀ i ∈ LLVM_MATRIX_BASE, ∀ a ∈ i.args, a.length < 24) _ h
  · split at h
    · exact (by decide : ∀ i ∈ LLVM_MATRIX_BOLT, ∀ a ∈ i.args, a.length < 24) _ h
    · simp at h

/-- C1: for every toolchain matrix entry, the assembled `build-llvm.py`
command line contains the `LLVM_PARALLEL_LINK_JOBS` define with the
full-LTO job count if and only if the entry's flag list contains `full`,
and the define with the thin-LTO job count if and only if the flag list
contains `thin`.  The hypotheses state that the resolved interpreter path
is none of the tokens the membership tests compare against, and that the
two define strings differ (which holds on any host with at least 15 GiB
of memory, since then `MEM // 30 < MEM // 15`). -/
theorem claim_c1_lto_link_jobs_iff (cfg : Config) (item : LLVMMatrixItem)
    (hmem : item ∈ LLVM_MATRIX cfg.machine)
    (hp : cfg.python3 ≠ "--pgo") (hf : cfg.python3 ≠ "full")
    (ht : cfg.python3 ≠ "thin")
    (hdf : cfg.python3 ≠ fullDefineStr cfg) (hdt : cfg.python3 ≠ thinDefineStr cfg)
    (hFT : fullDefineStr cfg ≠ thinDefineStr cfg) :
    (Elem.str (fullDefineStr cfg) ∈ buildLlvmPyCmd cfg item ↔ "full" ∈ item.args) ∧
    (Elem.str (thinDefineStr cfg) ∈ buildLlvmPyCmd cfg item ↔ "thin" ∈ item.args) := by
  have hshort := matrix_args_short hmem
  have hfixshort : ∀ s ∈ FIXED0_STRS, s.length < 24 := by decide
  have hFfix : fullDefineStr cfg ∉ FIXED0_STRS :=
    fun hm => fullDefineStr_ne_short cfg (hfixshort _ hm) rfl
  have hTfix : thinDefineStr cfg ∉ FIXED0_STRS :=
    fun hm => thinDefineStr_ne_short cfg (hfixshort _ hm) rfl
  have hFc0 : Elem.str (fullDefineStr cfg) ∉ buildLlvmPyCmd0 cfg item := by
    rw [mem_str_cmd0 cfg item hdf hFfix]
    exact fun hm => fullDefineStr_ne_short cfg (hshort _ hm) rfl
  have hTc0 : Elem.str (thinDefineStr cfg) ∉ buildLlvmPyCmd0 cfg item := by
    rw [mem_str_cmd0 cfg item hdt hTfix]
    exact fun hm => thinDefineStr_ne_short cfg (hshort _ hm) rfl
  have hl1 : fullDefineStr cfg ≠ "--linux-folder" := fullDefineStr_ne_short cfg (by decide)
  have hl2 : fullDefineStr cfg ≠ "--defines" := fullDefineStr_ne_short cfg (by decide)
  have hl3 : thinDefineStr cfg ≠ "--linux-folder" := thinDefineStr_ne_short cfg (by decide)
  have hl4 : thinDefineStr cfg ≠ "--defines" := thinDefineStr_ne_short cfg (by decide)
  rw [buildLlvmPyCmd_eq cfg item hp hf ht]
  constructor
  · by_cases h1 : "--pgo" ∈ item.args <;> by_cases h2 : "full" ∈ item.args <;>
      by_cases h3 : "thin" ∈ item.args <;>
      simp [h1, h2, h3, hFc0, hl1, hl2, hFT, Ne.symm hFT, List.mem_append]
  · by_cases h1 : "--pgo" ∈ item.args <;> by_cases h2 : "full" ∈ item.args <;>
      by_cases h3 : "thin" ∈ item.args <;>
      simp [h1, h2, h3, hTc0, hl3, hl4, Ne.symm hFT, List.mem_append]

/-- Witness for C1: the ThinLTO matrix entry on the sample x86_64 host
with 64 GiB of memory. -/
theorem claim_c1_lto_link_jobs_iff_witness :
    ({ args := ["--lto", "thin"],
       description := { full := "Two stage build with ThinLTO", short := "thinlto" } }
        : LLVMMatrixItem) ∈ LLVM_MATRIX sampleConfig.machine ∧
    ((Elem.str (fullDefineStr sampleConfig) ∈
        buildLlvmPyCmd sampleConfig
          { args := ["--lto", "thin"],
            description := { full := "Two stage build with ThinLTO", short := "thinlto" } } ↔
      "full" ∈ (["--lto", "thin"] : List String)) ∧
     (Elem.str (thinDefineStr sampleConfig) ∈
        buildLlvmPyCmd sampleConfig
          { args := ["--lto", "thin"],
            description := { full := "Two stage build with ThinLTO", short := "thinlto" } } ↔
      "thin" ∈ (["--lto", "thin"] : List String))) :=
  ⟨by decide,
   claim_c1_lto_link_jobs_iff sampleConfig _ (by decide) (by decide) (by decide)
     (by decide) (by decide) (by decide) (by decide)⟩

/-- C2 counterexample: for the stage-one matrix entry (which is in the
matrix on every host) the assembled command contains `--install-folder`,
an option that is neither one of the shared base flags nor one of the
entry's flags, so the command does not consist of exactly the shared base
flags plus the entry's flags. -/
theorem claim_c2_counterexample :
    ({ args := ["--build-stage1-only"],
       description := { full := "Stage one only", short := "stage-one" } }
        : LLVMMatrixItem) ∈ LLVM_MATRIX sampleConfig.machine ∧
    Elem.str "--install-folder" ∈
      buildLlvmPyCmd sampleConfig
        { args := ["--build-stage1-only"],
          description := { full := "Stage one only", short := "stage-one" } } ∧
    Elem.str "--install-folder" ∉
      (BASE_BUILD_LLVM_PY_CMD sampleConfig ++
        (["--build-stage1-only"] : List String).map Elem.str) ∧
    buildLlvmPyCmd sampleConfig
        { args := ["--build-stage1-only"],
          description := { full := "Stage one only", short := "stage-one" } } ≠
      BASE_BUILD_LLVM_PY_CMD sampleConfig ++
        (["--build-stage1-only"] : List String).map Elem.str := by decide

/-- C2 (amended): for every toolchain matrix entry the assembled command
consists of exactly the shared base flags, then `--install-folder` with
the entry's derived install path, then the entry's flags, then
`--linux-folder` exactly when the entry requests PGO and a
`LLVM_PARALLEL_LINK_JOBS` define exactly when it requests full or thin
LTO — each group appearing once, in this order, and nothing else.  The
hypotheses state that the resolved interpreter path is not one of the
literal tokens the script's membership tests look for. -/
theorem claim_c2_exact_command (cfg : Config) (item : LLVMMatrixItem)
    (_hmem : item ∈ LLVM_MATRIX cfg.machine)
    (hp : cfg.python3 ≠ "--pgo") (hf : cfg.python3 ≠ "full")
    (ht : cfg.python3 ≠ "thin") :
    buildLlvmPyCmd cfg item =
      BASE_BUILD_LLVM_PY_CMD cfg ++
      [Elem.str "--install-folder", Elem.path (matrixInstallFolder cfg item)] ++
      item.args.map Elem.str ++
      (if "--pgo" ∈ item.args then [Elem.str "--linux-folder", Elem.path cfg.linuxFolder]
       else []) ++
      (if "full" ∈ item.args then [Elem.str "--defines", Elem.str (fullDefineStr cfg)]
       else []) ++
      (if "thin" ∈ item.args then [Elem.str "--defines", Elem.str (thinDefineStr cfg)]
       else []) := by
  rw [buildLlvmPyCmd_eq cfg item hp hf ht]
  rfl

/-- Witness for C2: the stage-one entry on the sample host. -/
theorem claim_c2_exact_command_witness :
    buildLlvmPyCmd sampleConfig
        { args := ["--build-stage1-only"],
          description := { full := "Stage one only", short := "stage-one" } } =
      BASE_BUILD_LLVM_PY_CMD sampleConfig ++
      [Elem.str "--install-folder",
       Elem.path (matrixInstallFolder sampleConfig
        { args := ["--build-stage1-only"],
          description := { full := "Stage one only", short := "stage-one" } })] ++
      (["--build-stage1-only"] : List String).map Elem.str ++
      (if "--pgo" ∈ (["--build-stage1-only"] : List String) then
        [Elem.str "--linux-folder", Elem.path sampleConfig.linuxFolder] else []) ++
      (if "full" ∈ (["--build-stage1-only"] : List String) then
        [Elem.str "--defines", Elem.str (fullDefineStr sampleConfig)] else []) ++
      (if "thin" ∈ (["--build-stage1-only"] : List String) then
        [Elem.str "--defines", Elem.str (thinDefineStr sampleConfig)] else []) :=
  claim_c2_exact_command sampleConfig _ (by decide) (by decide) (by decide) (by decide)

/-- C3: for every kernel matrix entry, the toolchain variable sets used to
assemble the kernel build commands select exactly one toolchain: the
leading baseline set carries `CROSS_COMPILE` (and `KCONFIG_ALLCONFIG`) but
never `LLVM`, and every following toolchain-variant set carries `LLVM`
but never `CROSS_COMPILE` nor `KCONFIG_ALLCONFIG`. -/
theorem claim_c3_toolchain_selection (cfg : Config) (item : KernelMatrixItem)
    (_hmem : item ∈ KERNEL_MATRIX) :
    ∃ baseline variants,
      kernelVariantVars cfg item = baseline :: variants ∧
      "CROSS_COMPILE" ∈ varKeys baseline ∧
      "KCONFIG_ALLCONFIG" ∈ varKeys baseline ∧
      "LLVM" ∉ varKeys baseline ∧
      ∀ v ∈ variants, "LLVM" ∈ varKeys v ∧ "CROSS_COMPILE" ∉ varKeys v ∧
        "KCONFIG_ALLCONFIG" ∉ varKeys v := by
  refine ⟨_, _, rfl, ?_, ?_, ?_, ?_⟩
  · simp [varKeys, matrixMakeVars]
  · simp [varKeys, matrixMakeVars]
  · simp [varKeys, matrixMakeVars]
  · intro v hv
    simp only [List.mem_map] at hv
    obtain ⟨tc, htc, rfl⟩ := hv
    obtain ⟨a, _, rfl⟩ := htc
    simp [varKeys, matrixMakeVars]

/-- Witness for C3: the first kernel matrix entry on the sample host. -/
theorem claim_c3_toolchain_selection_witness :
    ∃ baseline variants,
      kernelVariantVars sampleConfig
          { arch := "arm", config := "multi_v7_defconfig",
            cross_compile := "arm-linux-gnueabi-" } = baseline :: variants ∧
      "CROSS_COMPILE" ∈ varKeys baseline ∧
      "KCONFIG_ALLCONFIG" ∈ varKeys baseline ∧
      "LLVM" ∉ varKeys baseline ∧
      ∀ v ∈ variants, "LLVM" ∈ varKeys v ∧ "CROSS_COMPILE" ∉ varKeys v ∧
        "KCONFIG_ALLCONFIG" ∉ varKeys v :=
  claim_c3_toolchain_selection sampleConfig _ (by decide)

lemma driveAll_true (cmds : List (List Elem)) :
    driveAll true cmds = ([], cmds.length) := by
  induction cmds with
  | nil => rfl
  | cons c cs ih => simp [driveAll, runSite, ih, Nat.add_comm]

lemma driveAll_false (cmds : List (List Elem)) :
    driveAll false cmds = (cmds, 0) := by
  induction cmds with
  | nil => rfl
  | cons c cs ih => simp [driveAll, runSite, ih]

/-- C4: with the dry-run flag set, the timing tool is executed zero times
and a warning is emitted at every execution site, while the assembled
command lines are exactly the ones a live run executes — the flag does not
influence command assembly. -/
theorem claim_c4_dry_run (cfg : Config) :
    (benchmarkTrace cfg true).executed = [] ∧
    0 < (benchmarkTrace cfg true).warnings ∧
    (benchmarkTrace cfg true).assembled = (benchmarkTrace cfg false).assembled ∧
    (benchmarkTrace cfg false).executed = (benchmarkTrace cfg false).assembled ∧
    (benchmarkTrace cfg false).warnings = 0 := by
  simp [benchmarkTrace, driveAll_true, driveAll_false, allHyperfineCmds]

/-- The ordered list of precondition outcomes matching claim C5. -/
lemma validate_ok_iff (e : HostEnv) :
    validatePreconditions e = .ok () ↔
      ((e.machine = "aarch64" ∨ e.machine = "x86_64") ∧
       e.versionCheck = .ok () ∧ e.hyperfineFound ∧ e.linuxFolderExists ∧
       e.llvmFolderExists ∧ e.linuxMakefileExists ∧ e.llvmCMakeListsExists ∧
       ¬e.linuxConfigExists) := by
  unfold validatePreconditions
  rcases hvc : e.versionCheck with msg | u
  · split_ifs <;> simp_all
  · cases u
    split_ifs <;> simp_all

/-- C5: the precondition checks reject — each with its own descriptive
error, and before any command assembly happens — a host machine outside
aarch64/x86_64, a missing `hyperfine` executable, a kernel source folder
without a `Makefile`, an LLVM source folder without `llvm/CMakeLists.txt`,
and a kernel source folder with a leftover `.config`; in each of the five
scenarios the whole run stops with that error. -/
theorem claim_c5_preconditions (e : HostEnv) (cfg : Config) (dryRun : Bool)
    (h : ¬e.linuxMakefileExists ∨ ¬e.llvmCMakeListsExists ∨ e.linuxConfigExists ∨
         e.machine ∉ (["aarch64", "x86_64"] : List String) ∨ ¬e.hyperfineFound) :
    (¬(e.machine = "aarch64" ∨ e.machine = "x86_64") →
      validatePreconditions e = .error .unsupportedMachine) ∧
    ((e.machine = "aarch64" ∨ e.machine = "x86_64") → e.versionCheck = .ok () →
      ¬e.hyperfineFound → validatePreconditions e = .error .hyperfineMissing) ∧
    ((e.machine = "aarch64" ∨ e.machine = "x86_64") → e.versionCheck = .ok () →
      e.hyperfineFound → e.linuxFolderExists → e.llvmFolderExists →
      ¬e.linuxMakefileExists → validatePreconditions e = .error .noMakefile) ∧
    ((e.machine = "aarch64" ∨ e.machine = "x86_64") → e.versionCheck = .ok () →
      e.hyperfineFound → e.linuxFolderExists → e.llvmFolderExists →
      e.linuxMakefileExists → ¬e.llvmCMakeListsExists →
      validatePreconditions e = .error .noCMakeLists) ∧
    ((e.machine = "aarch64" ∨ e.machine = "x86_64") → e.versionCheck = .ok () →
      e.hyperfineFound → e.linuxFolderExists → e.llvmFolderExists →
      e.linuxMakefileExists → e.llvmCMakeListsExists → e.linuxConfigExists →
      validatePreconditions e = .error .notClean) ∧
    ∃ err, validatePreconditions e = .error err ∧
      benchmarkMain e cfg dryRun = .error err := by
  refine ⟨?_, ?_, ?_, ?_, ?_, ?_⟩
  · intro hm
    simp [validatePreconditions, hm]
  · intro hm hv hh
    simp [validatePreconditions, hm, hv, hh]
  · intro hm hv hh h1 h2 h3
    simp [validatePreconditions, hm, hv, hh, h1, h2, h3]
  · intro hm hv hh h1 h2 h3 h4
    simp [validatePreconditions, hm, hv, hh, h1, h2, h3, h4]
  · intro hm hv hh h1 h2 h3 h4 h5
    simp [validatePreconditions, hm, hv, hh, h1, h2, h3, h4, h5]
  · have hne : validatePreconditions e ≠ .ok () := by
      intro hok
      rw [validate_ok_iff] at hok
      obtain ⟨hm, -, hhf, -, -, hmf, hcm, hcc⟩ := hok
      rcases h with h | h | h | h | h
      · exact h hmf
      · exact h hcm
      · exact hcc h
      · simp [List.mem_cons] at h
        rcases hm with hm | hm <;> simp [hm] at h
      · exact h hhf
    rcases hv : validatePreconditions e with err | u
    · exact ⟨err, rfl, by unfold benchmarkMain; rw [hv]; rfl⟩
    · cases u
      exact absurd hv hne

/-- Witness for C5: a host where the kernel source folder lacks a
`Makefile`. -/
theorem claim_c5_preconditions_witness :
    validatePreconditions
        { machine := "x86_64", versionCheck := .ok (), hyperfineFound := true,
          linuxFolderExists := true, llvmFolderExists := true,
          linuxMakefileExists := false, llvmCMakeListsExists := true,
          linuxConfigExists := false } = .error .noMakefile ∧
    ∃ err,
      validatePreconditions
          { machine := "x86_64", versionCheck := .ok (), hyperfineFound := true,
            linuxFolderExists := true, llvmFolderExists := true,
            linuxMakefileExists := false, llvmCMakeListsExists := true,
            linuxConfigExists := false } = .error err ∧
      benchmarkMain
          { machine := "x86_64", versionCheck := .ok (), hyperfineFound := true,
            linuxFolderExists := true, llvmFolderExists := true,
            linuxMakefileExists := false, llvmCMakeListsExists := true,
            linuxConfigExists := false } sampleConfig false = .error err :=
  ⟨(claim_c5_preconditions _ sampleConfig false (by simp)).2.2.1
      (Or.inr rfl) rfl rfl rfl rfl (by simp),
   (claim_c5_preconditions _ sampleConfig false (by simp)).2.2.2.2.2⟩

/-- C6: on a host with 64 GiB of physical memory the full-LTO link-job
constant is `64 // 30 = 2` and the thin-LTO constant is `64 // 15 = 4`;
in general the constants are the memory size in GiB divided by 30 and by
15. -/
theorem claim_c6_link_job_constants (pageSize physPages : Nat)
    (h : pageSize * physPages = 64 * 1024 ^ 3) :
    FULL_LTO_JL (memGiB pageSize physPages) = 2 ∧
    THIN_LTO_JL (memGiB pageSize physPages) = 4 ∧
    (∀ mem : Nat, FULL_LTO_JL mem = mem / 30 ∧ THIN_LTO_JL mem = mem / 15) := by
  unfold memGiB FULL_LTO_JL THIN_LTO_JL
  rw [h]
  norm_num

/-- Witness for C6: 4096-byte pages, 16777216 physical pages = 64 GiB. -/
theorem claim_c6_link_job_constants_witness :
    (4096 * 16777216 = 64 * 1024 ^ 3) ∧
    FULL_LTO_JL (memGiB 4096 16777216) = 2 ∧
    THIN_LTO_JL (memGiB 4096 16777216) = 4 :=
  ⟨by norm_num,
   (claim_c6_link_job_constants 4096 16777216 (by norm_num)).1,
   (claim_c6_link_job_constants 4096 16777216 (by norm_num)).2.1⟩

lemma fetchGcc_not_downloaded {p : List String} {ts : List String} {t : String}
    (h : t ∈ p) : t ∉ (fetchGcc p ts).2 := by
  induction ts generalizing p with
  | nil => simp [fetchGcc]
  | cons a as ih =>
    by_cases ha : a ∈ p
    · simpa [fetchGcc, ha] using ih h
    · simp only [fetchGcc, ha, if_false, List.mem_cons, not_or]
      exact ⟨fun heq => ha (heq ▸ h), ih (List.mem_cons_of_mem _ h)⟩

lemma fetchGcc_mem_result {p ts : List String} {t : String}
    (h : t ∈ p ∨ t ∈ ts) : t ∈ (fetchGcc p ts).1 := by
  induction ts generalizing p with
  | nil => simpa [fetchGcc] using h.resolve_right (by simp)
  | cons a as ih =>
    by_cases ha : a ∈ p
    · simp only [fetchGcc, ha, if_true]
      rcases h with h | h
      · exact ih (Or.inl h)
      · rcases List.mem_cons.1 h with rfl | h
        · exact ih (Or.inl ha)
        · exact ih (Or.inr h)
    · simp only [fetchGcc, ha, if_false]
      rcases h with h | h
      · exact ih (Or.inl (List.mem_cons_of_mem _ h))
      · rcases List.mem_cons.1 h with rfl | h
        · exact ih (Or.inl (List.mem_cons_self _ _))
        · exact ih (Or.inr h)

lemma fetchGcc_all_present {p ts : List String} (h : ∀ t ∈ ts, t ∈ p) :
    fetchGcc p ts = (p, []) := by
  induction ts with
  | nil => rfl
  | cons a as ih =>
    have ha : a ∈ p := h a (List.mem_cons_self _ _)
    rw [fetchGcc, if_pos ha]
    exact ih fun t ht => h t (List.mem_cons_of_mem _ ht)

/-- C7: the dependency fetcher is idempotent.  A triple whose marker gcc
binary is already present is never downloaded or extracted, and a second
run of the fetcher right after a (successful) first run downloads and
extracts nothing and leaves the install state unchanged. -/
theorem claim_c7_fetch_idempotent (present : List String) :
    (∀ t ∈ GCC_TUPLES, t ∈ present → t ∉ (fetchGcc present GCC_TUPLES).2) ∧
    fetchGcc (fetchGcc present GCC_TUPLES).1 GCC_TUPLES =
      ((fetchGcc present GCC_TUPLES).1, []) := by
  constructor
  · exact fun t _ hp => fetchGcc_not_downloaded hp
  · exact fetchGcc_all_present fun t ht => fetchGcc_mem_result (Or.inr ht)

/-- Witness for C7: a host that already has the aarch64 toolchain, and a
second run starting from an empty install folder. -/
theorem claim_c7_fetch_idempotent_witness :
    "aarch64-linux" ∉ (fetchGcc ["aarch64-linux"] GCC_TUPLES).2 ∧
    fetchGcc (fetchGcc [] GCC_TUPLES).1 GCC_TUPLES =
      ((fetchGcc [] GCC_TUPLES).1, []) :=
  ⟨(claim_c7_fetch_idempotent ["aarch64-linux"]).1 _ (by decide) (by decide),
   (claim_c7_fetch_idempotent []).2⟩

/-- C8 counterexample: when the override file already exists with content
that does not force `CONFIG_GCC_PLUGINS=n`, the run leaves that content in
place, so it does not ensure a file whose content forces the
plugin-disabling option. -/
theorem claim_c8_counterexample :
    (ensureAllmodConfig (some "CONFIG_FOO=y\n")).1 = "CONFIG_FOO=y\n" ∧
    forcesGccPluginsOff (ensureAllmodConfig (some "CONFIG_FOO=y\n")).1 = false ∧
    (ensureAllmodConfig (some "CONFIG_FOO=y\n")).2 = false := by decide

/-- C8 (amended): the run ensures the kernel config override file exists:
when it is absent the file is written with `CONFIG_GCC_PLUGINS=n` (which
forces the plugin-disabling option); when it already exists nothing is
written and its content is left unchanged, even if that content does not
force the option. -/
theorem claim_c8_allmod_config (pre : Option String) :
    (pre = none →
      ensureAllmodConfig pre = (ALLMOD_CONFIG_CONTENT, true) ∧
      forcesGccPluginsOff (ensureAllmodConfig pre).1 = true) ∧
    (∀ c, pre = some c → ensureAllmodConfig pre = (c, false)) := by
  constructor
  · rintro rfl
    exact ⟨rfl, by decide⟩
  · rintro c rfl
    rfl

/-- Witness for C8: an absent file is written with the forcing content; a
pre-existing file is left unchanged. -/
theorem claim_c8_allmod_config_witness :
    (ensureAllmodConfig none = (ALLMOD_CONFIG_CONTENT, true) ∧
     forcesGccPluginsOff (ensureAllmodConfig none).1 = true) ∧
    ensureAllmodConfig (some "CONFIG_FOO=y\n") = ("CONFIG_FOO=y\n", false) :=
  ⟨(claim_c8_allmod_config none).1 rfl,
   (claim_c8_allmod_config (some "CONFIG_FOO=y\n")).2 _ rfl⟩

/-- C9: the repetition counts of the assembled timing-tool invocations are
fixed: the toolchain benchmark always runs with `--runs 5` and
`--warmup 1`, and each kernel benchmark runs with `--runs 10` when the
entry's config name contains `defconfig` and `--runs 5` otherwise, always
with `--warmup 1`; concretely the six kernel entries get runs
10, 10, 10, 5, 5, 5. -/
theorem claim_c9_repetition_counts (cfg : Config) :
    (∃ s t, llvmHyperfineCmd cfg = s ++ [Elem.str "--runs", Elem.str "5"] ++ t) ∧
    (∃ s t, llvmHyperfineCmd cfg = s ++ [Elem.str "--warmup", Elem.str "1"] ++ t) ∧
    (∀ item ∈ KERNEL_MATRIX,
      (∃ s t, kernelHyperfineCmd cfg item =
        s ++ [Elem.str "--runs",
              Elem.str (if pyIn "defconfig" item.config then "10" else "5")] ++ t) ∧
      (∃ s t, kernelHyperfineCmd cfg item =
        s ++ [Elem.str "--warmup", Elem.str "1"] ++ t)) ∧
    KERNEL_MATRIX.map (fun i => kernelRuns i.config) =
      ["10", "10", "10", "5", "5", "5"] := by
  refine ⟨?_, ?_, ?_, by decide⟩
  · exact ⟨[Elem.str "hyperfine"] ++
        (hyperfineDescriptions cfg.machine).flatMap
          (fun d => [Elem.str "--command-name", Elem.str d]) ++
        [Elem.str "--export-markdown", Elem.path (cfg.resultsFolder ++ "/llvm.md"),
         Elem.str "--prepare", Elem.str ("rm -fr " ++ llvmBuildFolder cfg)],
      [Elem.str "--shell", Elem.str "none", Elem.str "--warmup", Elem.str "1"] ++
        (llvmHyperfineBuildCmds cfg).map Elem.str,
      by simp [llvmHyperfineCmd, List.append_assoc]⟩
  · exact ⟨[Elem.str "hyperfine"] ++
        (hyperfineDescriptions cfg.machine).flatMap
          (fun d => [Elem.str "--command-name", Elem.str d]) ++
        [Elem.str "--export-markdown", Elem.path (cfg.resultsFolder ++ "/llvm.md"),
         Elem.str "--prepare", Elem.str ("rm -fr " ++ llvmBuildFolder cfg),
         Elem.str "--runs", Elem.str "5", Elem.str "--shell", Elem.str "none"],
      (llvmHyperfineBuildCmds cfg).map Elem.str,
      by simp [llvmHyperfineCmd, List.append_assoc]⟩
  · intro item hmem
    constructor
    · exact ⟨[Elem.str "hyperfine",
          Elem.str "--command-name", Elem.str ("GCC " ++ GCC_VERSION)] ++
        (hyperfineDescriptions cfg.machine).flatMap
          (fun d => [Elem.str "--command-name", Elem.str ("LLVM (" ++ d ++ ")")]) ++
        [Elem.str "--export-markdown",
         Elem.path (cfg.resultsFolder ++ "/" ++ item.arch ++ "-" ++ item.config ++ ".md"),
         Elem.str "--prepare", Elem.str ("rm -fr " ++ linuxBuildFolder cfg)],
      [Elem.str "--shell", Elem.str "none", Elem.str "--warmup", Elem.str "1"] ++
        (kernelVariantVars cfg item).map
          (fun v => Elem.str (renderCmd (makeCommand cfg item v))),
      by simp [kernelHyperfineCmd, kernelRuns, List.append_assoc]⟩
    · exact ⟨[Elem.str "hyperfine",
          Elem.str "--command-name", Elem.str ("GCC " ++ GCC_VERSION)] ++
        (hyperfineDescriptions cfg.machine).flatMap
          (fun d => [Elem.str "--command-name", Elem.str ("LLVM (" ++ d ++ ")")]) ++
        [Elem.str "--export-markdown",
         Elem.path (cfg.resultsFolder ++ "/" ++ item.arch ++ "-" ++ item.config ++ ".md"),
         Elem.str "--prepare", Elem.str ("rm -fr " ++ linuxBuildFolder cfg),
         Elem.str "--runs", Elem.str (kernelRuns item.config),
         Elem.str "--shell", Elem.str "none"],
      (kernelVariantVars cfg item).map
          (fun v => Elem.str (renderCmd (makeCommand cfg item v))),
      by simp [kernelHyperfineCmd, List.append_assoc]⟩

/-- Witness for C9: the first kernel matrix entry on the sample host. -/
theorem claim_c9_repetition_counts_witness :
    ∃ s t, kernelHyperfineCmd sampleConfig
        { arch := "arm", config := "multi_v7_defconfig",
          cross_compile := "arm-linux-gnueabi-" } =
      s ++ [Elem.str "--runs",
            Elem.str (if pyIn "defconfig" "multi_v7_defconfig" then "10" else "5")] ++ t :=
  ((claim_c9_repetition_counts sampleConfig).2.2.1 _ (by decide)).1

/-- C10: the toolchain matrix contains a BOLT variant if and only if the
host machine is x86_64; the x86_64 matrix has exactly 11 entries, the
aarch64 matrix exactly 8, and no aarch64 entry carries the `--bolt`
flag. -/
theorem claim_c10_bolt_iff_x86_64 (m : String) :
    (LLVM_MATRIX "x86_64").length = 11 ∧
    (LLVM_MATRIX "aarch64").length = 8 ∧
    ((∃ i ∈ LLVM_MATRIX m, "--bolt" ∈ i.args) ↔ m = "x86_64") ∧
    ∀ i ∈ LLVM_MATRIX "aarch64", "--bolt" ∉ i.args := by
  refine ⟨by decide, by decide, ?_, by decide⟩
  constructor
  · rintro ⟨i, hi, hb⟩
    by_contra hm
    rw [LLVM_MATRIX, if_neg hm, List.append_nil] at hi
    exact (by decide : ∀ j ∈ LLVM_MATRIX_BASE, "--bolt" ∉ j.args) _ hi hb
  · rintro rfl
    exact ⟨{ args := ["--bolt", "--pgo", "kernel-defconfig"],
             description := { full := "Three stage build with BOLT and PGO against defconfig",
                              short := "pgo-defconfig-bolt" } },
           by decide, by decide⟩

/-- Witness for C10: the stage-one entry of the aarch64 matrix carries no
BOLT flag. -/
theorem claim_c10_bolt_iff_x86_64_witness :
    "--bolt" ∉ ({ args := ["--build-stage1-only"],
                  description := { full := "Stage one only", short := "stage-one" } }
        : LLVMMatrixItem).args :=
  (claim_c10_bolt_iff_x86_64 "aarch64").2.2.2 _ (by decide)

end TcBuildBench
